import Mathlib

/-
Verification development for the ledding LED-matrix animation core.

Shallow embedding conventions:
  - JS numbers are modelled as rationals (ℚ); integer-valued quantities
    (grid coordinates, art values, counters) as ℤ or ℕ.
  - The JS remainder operator a % b (truncated division remainder) is
    modelled by jsMod; the JS `x | 0` truncation by ratTrunc.
  - Math.random() results are threaded as explicit parameters.
  - performance.now() timestamps are threaded as an explicit `now` argument.
  - The JS Map (insertion-ordered) is modelled as an association list.
-/

namespace Ledding

/-- Truncation toward zero of a rational, the semantics of JS `x | 0`
and of the implicit truncation in JS truncated division. -/
def ratTrunc (q : ℚ) : ℤ :=
  if q < 0 then ⌈q⌉ else ⌊q⌋

/-- JS remainder operator `x % y` (truncated-division remainder). -/
def jsMod (x y : ℚ) : ℚ :=
  x - y * (ratTrunc (x / y) : ℚ)

/-- Scroll / cascade directions (src/types.ts `Direction`). -/
inductive Direction where
  | toRight
  | toLeft
  | toBottom
  | toTop
  | toTopLeft
  | toTopRight
  | toBottomLeft
  | toBottomRight
deriving DecidableEq, Repr

/-- Sequencing patterns (src/types.ts `AnimationPattern`). -/
inductive AnimationPattern where
  | cascade
  | interlaced
  | wave
  | random
deriving DecidableEq, Repr

/-- src/types.ts `TransitionAnimationOptions`: per-phase cascade settings. -/
structure TransitionAnimationOptions where
  pattern : AnimationPattern
  direction : Direction
  delay : ℚ
  step : ℤ
deriving DecidableEq, Repr

/-- src/types.ts `TransitionConfig`: the legacy speed-based shape versus the
duration-based shape, discriminated in TS by `isDurationBased` (presence of
the `duration` and `easing` keys), here by the constructor tag. -/
inductive TransitionConfig where
  | speedBased (min max : ℚ) (randomize : Bool)
  | durationBased (duration : ℚ) (easing : String)
deriving DecidableEq, Repr

/-- src/types.ts `TransitionsOptions`. -/
structure TransitionsOptions where
  ignition : TransitionConfig
  extinction : TransitionConfig
  morph : TransitionConfig
deriving DecidableEq, Repr

/-- src/types.ts `AnimationOptions` (the scroll entry is not needed by the
embedded grid functions and is omitted). -/
structure AnimationOptions where
  ignition : TransitionAnimationOptions
  extinction : TransitionAnimationOptions
deriving DecidableEq, Repr

/-- src/types.ts `OpacityOptions` (base.min, base.max, active). -/
structure OpacityOptions where
  baseMin : ℚ
  baseMax : ℚ
  active : ℚ
deriving DecidableEq, Repr

/-- src/types.ts `GridOptions`. -/
structure GridOptions where
  fill : Bool
  lifespan : ℤ
deriving DecidableEq, Repr

/-- The slice of src/types.ts `LeddingOptions` read by the grid-manager and
animation-engine functions. -/
structure LeddingOptions where
  transitions : TransitionsOptions
  animation : AnimationOptions
  opacities : OpacityOptions
  grid : GridOptions
deriving DecidableEq, Repr

/-- src/types.ts `DimensionsCache`. -/
structure DimensionsCache where
  scaledLedSize : ℚ
  scaledLedGap : ℚ
  ledFullSize : ℚ
  gridWidthPx : ℚ
  gridHeightPx : ℚ
  minSize : ℚ
  maxSize : ℚ
deriving DecidableEq, Repr

/-- src/types.ts `ArtPosition`. -/
structure ArtPosition where
  startPx : ℚ
  startPxY : ℚ
  widthPx : ℚ
  heightPx : ℚ
deriving DecidableEq, Repr

/-- A grid coordinate (the `gridPosition` field of a LED). -/
structure GridPos where
  i : ℤ
  j : ℤ
deriving DecidableEq, Repr

/-- src/types.ts `LedState`: the full per-LED animation state. -/
structure LedState where
  gridPosition : GridPos
  baseOpacity : ℚ
  currentSize : ℚ
  targetSize : ℚ
  currentOpacity : ℚ
  targetOpacity : ℚ
  currentArtValue : ℕ
  targetArtValue : ℕ
  artValueForColor : ℕ
  transitionSpeed : ℚ
  delayTimer : ℚ
  isTransitioning : Bool
  isDelayed : Bool
  lifespan : ℤ
  transitionStartTime : ℚ
  transitionDuration : ℚ
  transitionEasing : String
  startSize : ℚ
  startOpacity : ℚ
  useDurationBased : Bool
deriving DecidableEq, Repr

/-- src/core/LedFactory.ts `createLedObject`. -/
def createLedObject (i j : ℤ) (initialSize baseOpacity : ℚ) (opts : LeddingOptions) : LedState :=
  let defaultSpeed :=
    match opts.transitions.ignition with
    | .durationBased _ _ => 0
    | .speedBased mn _ _ => mn
  { gridPosition := ⟨i, j⟩
    baseOpacity := baseOpacity
    currentSize := initialSize
    targetSize := initialSize
    currentOpacity := baseOpacity
    targetOpacity := baseOpacity
    currentArtValue := 0
    targetArtValue := 0
    artValueForColor := 0
    transitionSpeed := defaultSpeed
    delayTimer := 0
    isTransitioning := false
    isDelayed := false
    lifespan := 0
    transitionStartTime := 0
    transitionDuration := 0
    transitionEasing := "linear"
    startSize := initialSize
    startOpacity := baseOpacity
    useDurationBased := false }

/-- src/utils/AnimationEngine.ts `AnimationEngine._getCascadeIndex`:
raw directional index of a cell. -/
def getCascadeIndex (i j : ℤ) (width height : ℤ) (d : Direction) : ℤ :=
  match d with
  | .toRight => i
  | .toLeft => width - 1 - i
  | .toBottom => j
  | .toTop => height - 1 - j
  | .toBottomRight => i + j
  | .toTopLeft => width - 1 - i + (height - 1 - j)
  | .toTopRight => i + (height - 1 - j)
  | .toBottomLeft => width - 1 - i + j

/-- The `finalIndex` computed inside `AnimationEngine.calculateDelay`
(src/utils/AnimationEngine.ts).  `rand` stands for the Math.random() sample
drawn by the `random` pattern.  JS `%` on the nonnegative cascade index is
truncated remainder (Int.tmod); JS Math.floor of the integer quotient is
floor division (Int.fdiv). -/
def finalIndexOf (i j : ℤ) (gridWidth gridHeight : ℤ) (cfg : TransitionAnimationOptions)
    (rand : ℚ) : ℚ :=
  let safeStep := max 1 cfg.step
  let cascadeIndex := getCascadeIndex i j gridWidth gridHeight cfg.direction
  match cfg.pattern with
  | .interlaced => ((Int.tmod cascadeIndex safeStep : ℤ) : ℚ)
  | .wave => ((Int.tmod cascadeIndex safeStep + Int.fdiv cascadeIndex safeStep : ℤ) : ℚ)
  | .random => rand * ((gridWidth + gridHeight : ℤ) : ℚ)
  | .cascade => (cascadeIndex : ℚ)

/-- src/utils/AnimationEngine.ts `AnimationEngine.calculateDelay`. -/
def calculateDelay (i j : ℤ) (gridWidth gridHeight : ℤ) (cfg : TransitionAnimationOptions)
    (rand : ℚ) : ℚ :=
  finalIndexOf i j gridWidth gridHeight cfg rand * cfg.delay

/-- The anonymous `\x7b delay: 0 \x7d` animation config used by the morph branch
of `prepareTransition`; in `calculateDelay` its missing fields fall back to
the destructuring defaults pattern = cascade, direction = to-bottom, step = 1. -/
def morphAnimConfig : TransitionAnimationOptions :=
  { pattern := .cascade, direction := .toBottom, delay := 0, step := 1 }

/-- src/core/GridManager.ts `prepareTransition`.  Returns the updated LED
together with the computed delay (the TS function mutates the LED and
returns the delay).  `now` is the performance.now() timestamp; `rand` the
Math.random() sample used by a randomized legacy speed; `randDelay` the
sample used by a `random` cascade pattern. -/
def prepareTransition (led : LedState) (targetArtValue : ℕ) (opts : LeddingOptions)
    (dims : DimensionsCache) (numCols numRows : ℕ) (now rand randDelay : ℚ) :
    LedState × ℚ :=
  let previousArtValue := led.currentArtValue
  let selected :=
    if 0 < targetArtValue ∧ previousArtValue = 0 then
      (opts.transitions.ignition, opts.animation.ignition,
        { led with artValueForColor := targetArtValue })
    else if targetArtValue = 0 ∧ 0 < previousArtValue then
      (opts.transitions.extinction, opts.animation.extinction,
        { led with artValueForColor := previousArtValue })
    else
      (opts.transitions.morph, morphAnimConfig,
        if 0 < targetArtValue then { led with artValueForColor := targetArtValue } else led)
  let transitionConfig := selected.1
  let animConfig := selected.2.1
  let led1 := selected.2.2
  let led2 := { led1 with startSize := led1.currentSize, startOpacity := led1.currentOpacity }
  let led3 :=
    match transitionConfig with
    | .durationBased dur eas =>
        { led2 with useDurationBased := true, transitionDuration := dur,
                    transitionEasing := eas, transitionStartTime := now,
                    transitionSpeed := 0 }
    | .speedBased mn mx randomize =>
        { led2 with useDurationBased := false,
                    transitionSpeed := if randomize then mn + (mx - mn) * rand else mn }
  let led4 :=
    if 0 < targetArtValue then
      if targetArtValue = 1 then { led3 with targetSize := dims.maxSize }
      else if targetArtValue = 2 then { led3 with targetSize := dims.scaledLedSize * (7 / 10) }
      else { led3 with targetSize := dims.scaledLedSize * (2 / 5) }
    else { led3 with targetSize := dims.minSize }
  let led5 :=
    if 0 < targetArtValue then { led4 with targetOpacity := opts.opacities.active }
    else { led4 with targetOpacity := led4.baseOpacity }
  (led5, calculateDelay led5.gridPosition.i led5.gridPosition.j
      (numCols : ℤ) (numRows : ℤ) animConfig randDelay)

/-- src/core/GridManager.ts `updateSingleLedState`: one simulation step of a
single LED toward the sampled `newArtValue`.  `isSparse` is
`gridState.isSparse`. -/
def updateSingleLedState (led : LedState) (newArtValue : ℕ) (opts : LeddingOptions)
    (dims : DimensionsCache) (isSparse : Bool) (numCols numRows : ℕ)
    (now rand randDelay : ℚ) : LedState :=
  let targetChanged := led.targetArtValue ≠ newArtValue
  let led : LedState := { led with targetArtValue := newArtValue }
  let led :=
    if isSparse then
      let led :=
        if targetChanged ∧ 0 < newArtValue then { led with lifespan := opts.grid.lifespan }
        else led
      if newArtValue = 0 ∧ 0 < led.lifespan then { led with lifespan := led.lifespan - 1 }
      else led
    else led
  let led :=
    if targetChanged then
      let pd := prepareTransition led led.targetArtValue opts dims numCols numRows
          now rand randDelay
      let led : LedState := { pd.1 with delayTimer := pd.2 }
      if 0 < led.delayTimer then { led with isDelayed := true, isTransitioning := false }
      else { led with isDelayed := false, isTransitioning := true }
    else led
  if led.isDelayed then
    let led : LedState := { led with delayTimer := led.delayTimer - 1 }
    if led.delayTimer ≤ 0 then
      let led : LedState := { led with isDelayed := false, isTransitioning := true }
      (prepareTransition led led.targetArtValue opts dims numCols numRows
          now rand randDelay).1
    else led
  else if led.isTransitioning then
    let speed := led.transitionSpeed
    let led : LedState := { led with
      currentSize := led.currentSize + (led.targetSize - led.currentSize) * speed,
      currentOpacity := led.currentOpacity + (led.targetOpacity - led.currentOpacity) * speed }
    if |led.currentSize - led.targetSize| < (1 : ℚ) / 100 ∧
        |led.currentOpacity - led.targetOpacity| < (1 : ℚ) / 100 then
      let led : LedState :=
        { led with currentSize := led.targetSize, currentOpacity := led.targetOpacity,
                   currentArtValue := led.targetArtValue, isTransitioning := false }
      if led.currentArtValue = 0 then { led with artValueForColor := 0 } else led
    else led
  else led

/-- The toroidal wrap of a pixel coordinate, as written twice in the source:
in `getArtValueAt` (src/core/GridManager.ts) and in `Ledding.draw`
(src/Ledding.ts): `(base + scroll) % extent`, with `extent` added when the
JS remainder is negative. -/
def wrapCoord (base scroll extent : ℚ) : ℚ :=
  let wrapped := jsMod (base + scroll) extent
  if wrapped < 0 then wrapped + extent else wrapped

/-- Sampling of an entry of the art pattern: `artPattern[r]?.[c] ?? 0`
with the additional fact that a negative JS index is `undefined`. -/
def patternAt (pattern : List (List ℕ)) (r c : ℤ) : ℕ :=
  if 0 ≤ r ∧ 0 ≤ c then ((pattern.getD r.toNat []).getD c.toNat 0) else 0

/-- src/core/GridManager.ts `getArtValueAt`: sample the pattern at a LED's
toroidally wrapped pixel position. -/
def getArtValueAt (led : LedState) (dims : DimensionsCache) (artPosition : ArtPosition)
    (artPattern : List (List ℕ)) (scrollX scrollY : ℚ) : ℕ :=
  let baseX := (led.gridPosition.i : ℚ) * dims.ledFullSize
  let baseY := (led.gridPosition.j : ℚ) * dims.ledFullSize
  let wrappedLedCenterX := wrapCoord baseX scrollX dims.gridWidthPx
  let wrappedLedCenterY := wrapCoord baseY scrollY dims.gridHeightPx
  if artPosition.startPx ≤ wrappedLedCenterX ∧
      wrappedLedCenterX < artPosition.startPx + artPosition.widthPx ∧
      artPosition.startPxY ≤ wrappedLedCenterY ∧
      wrappedLedCenterY < artPosition.startPxY + artPosition.heightPx then
    let artColIndex := ratTrunc ((wrappedLedCenterX - artPosition.startPx) / dims.ledFullSize)
    let artRowIndex := ratTrunc ((wrappedLedCenterY - artPosition.startPxY) / dims.ledFullSize)
    patternAt artPattern artRowIndex artColIndex
  else 0

/-- The LED center coordinate computed per axis by the draw loop of
`Ledding.draw` (src/Ledding.ts): same wrap as the update path. -/
def drawLedCenter (gridIndex : ℤ) (ledFullSize scroll extent : ℚ) : ℚ :=
  wrapCoord ((gridIndex : ℚ) * ledFullSize) scroll extent

/-- The second pass of src/core/GridManager.ts `updateSparseGrid`: every
existing sparse cell whose key was not touched by the active-pattern pass is
advanced toward target 0 and deleted exactly when, afterwards,
`currentArtValue == 0 && lifespan <= 0`.  The JS `Map<string, LedState>`
keyed by the string key i,j is modelled as an insertion-ordered association
list keyed by the pair (i, j); `activeLedsKeys` is the set of keys touched
by the active pass.  `rand`/`randDelay` give the Math.random() samples drawn
for a given key. -/
def updateSparseSweep (ledsMap : List ((ℤ × ℤ) × LedState)) (activeLedsKeys : List (ℤ × ℤ))
    (opts : LeddingOptions) (dims : DimensionsCache) (numCols numRows : ℕ)
    (now : ℚ) (rand randDelay : (ℤ × ℤ) → ℚ) : List ((ℤ × ℤ) × LedState) :=
  ledsMap.filterMap fun kv =>
    if kv.1 ∈ activeLedsKeys then some kv
    else
      let led := updateSingleLedState kv.2 0 opts dims true numCols numRows
          now (rand kv.1) (randDelay kv.1)
      if led.currentArtValue = 0 ∧ led.lifespan ≤ 0 then none
      else some (kv.1, led)

/-- The configuration inputs of `Ledding.setup` (src/Ledding.ts): the
container/canvas size at the time of the call, the configured LED pixel
size and gap, the scale-to-fit flag and the grid mode. -/
structure SetupConfig where
  canvasW : ℚ
  canvasH : ℚ
  ledSize : ℚ
  ledGap : ℚ
  scaleToFit : Bool
  isSparse : Bool
deriving DecidableEq, Repr

/-- The `ledFullSize` (scaled LED pitch) computed by `Ledding.setup` from
the effective pattern dimensions: when scale-to-fit is on and the required
art extent is positive, a scale factor below 1 shrinks both the LED size
and gap. -/
def ledFullSizeOf (cfg : SetupConfig) (effCols effRows : ℕ) : ℚ :=
  let base := cfg.ledSize + cfg.ledGap
  let artRequiredWidth := (effCols : ℚ) * base
  let artRequiredHeight := (effRows : ℚ) * base
  if cfg.scaleToFit ∧ 0 < artRequiredWidth ∧ 0 < artRequiredHeight then
    let scaleFactor := min (cfg.canvasW / artRequiredWidth) (cfg.canvasH / artRequiredHeight)
    if scaleFactor < 1 then scaleFactor * base else base
  else base

/-- The grid dimensions (`numCols`, `numRows`) computed by `Ledding.setup`
(src/Ledding.ts).  `artCols`/`artRows` are the current pattern's dimensions,
`maxCols`/`maxRows` the tracked maxima `_maxPatternCols`/`_maxPatternRows`;
the effective dimensions are their maxima.  When `ledFullSize <= 0` the
source returns early, leaving the previous grid dimensions `old` in place. -/
def setupGridDims (cfg : SetupConfig) (artCols artRows maxCols maxRows : ℕ)
    (old : ℤ × ℤ) : ℤ × ℤ :=
  let effectiveCols := max artCols maxCols
  let effectiveRows := max artRows maxRows
  let ledFullSize := ledFullSizeOf cfg effectiveCols effectiveRows
  if ledFullSize ≤ 0 then old
  else
    let requiredColsByCanvas := ⌈cfg.canvasW / ledFullSize⌉ + 2
    let requiredRowsByCanvas := ⌈cfg.canvasH / ledFullSize⌉ + 2
    if cfg.isSparse then
      (max requiredColsByCanvas (effectiveCols : ℤ), max requiredRowsByCanvas (effectiveRows : ℤ))
    else
      (requiredColsByCanvas, requiredRowsByCanvas)

/-- The `_maxPatternCols`/`_maxPatternRows` update at the top of
`Ledding.setPattern` (src/Ledding.ts). -/
def updateMaxDims (maxCols maxRows newCols newRows : ℕ) : ℕ × ℕ :=
  if maxCols < newCols ∨ maxRows < newRows then
    (max maxCols newCols, max maxRows newRows)
  else (maxCols, maxRows)

/-- One `setPattern(pattern)` call with the default instant strategy
(src/Ledding.ts): update the tracked maxima, install the pattern, and rerun
`setup` synchronously.  Returns the new maxima and the new grid dims. -/
def setPatternInstant (cfg : SetupConfig) (maxCols maxRows : ℕ) (old : ℤ × ℤ)
    (newCols newRows : ℕ) : (ℕ × ℕ) × (ℤ × ℤ) :=
  let m := updateMaxDims maxCols maxRows newCols newRows
  (m, setupGridDims cfg newCols newRows m.1 m.2 old)

/-- Pattern-transition strategies (src/types.ts `PatternTransitionStrategy`). -/
inductive PatternStrategy where
  | instant
  | morph
  | fade
  | crossfade
deriving DecidableEq, Repr

/-- The `phase` field of the pattern-transition state. -/
inductive PatternPhase where
  | fadeOut
  | fadeIn
  | morphing
deriving DecidableEq, Repr

/-- The transient `_patternTransition` record of src/Ledding.ts (its
`isActive` flag is modelled by wrapping the record in `Option`: the code
nulls the record in the same statement group that clears the flag). -/
structure PatternTransitionState where
  strategy : PatternStrategy
  startTime : ℚ
  duration : ℚ
  easing : String
  oldPattern : List (List ℕ)
  newPattern : List (List ℕ)
  phase : PatternPhase
deriving DecidableEq, Repr

/-- Column count of a pattern: `pattern[0]?.length || 0`. -/
def patternCols (p : List (List ℕ)) : ℕ := (p.headD []).length

/-- Row count of a pattern: `pattern.length`. -/
def patternRows (p : List (List ℕ)) : ℕ := p.length

/-- The all-zero pattern with the old pattern's dimensions built by
`Ledding._startFadeOut` (src/Ledding.ts). -/
def zeroPattern (rows cols : ℕ) : List (List ℕ) :=
  List.replicate rows (List.replicate cols 0)

/-- `Ledding.setPattern(pattern, opts)` with strategy `fade` and a positive
duration (src/Ledding.ts): records the transition state with phase
`fadeOut` and installs the all-zero fade-out pattern via `_startFadeOut`.
Returns the installed active pattern together with the transition state. -/
def setPatternFade (now duration : ℚ) (easing : String)
    (oldPattern newPattern : List (List ℕ)) :
    List (List ℕ) × PatternTransitionState :=
  let pt : PatternTransitionState :=
    { strategy := .fade, startTime := now, duration := duration, easing := easing,
      oldPattern := oldPattern, newPattern := newPattern, phase := .fadeOut }
  (zeroPattern (patternRows oldPattern) (patternCols oldPattern), pt)

/-- The result of one `Ledding._updatePatternTransition` call: the possibly
cleared transition state, the active pattern afterwards, and whether
`setup()` was invoked (the fade-in branch calls it when the new pattern's
bounding box exceeds the old one's). -/
structure PatternUpdateResult where
  transition : Option PatternTransitionState
  artPattern : List (List ℕ)
  setupCalled : Bool
deriving DecidableEq, Repr

/-- src/Ledding.ts `_updatePatternTransition`, executed at the top of every
`_update` tick: progress = min(elapsed/duration, 1); morph/crossfade clear
at progress ≥ 1; fade switches fadeOut → fadeIn (swapping in the real new
pattern, growing the grid when needed) at progress ≥ 0.5, and clears at
progress ≥ 1 while in fadeIn. -/
def updatePatternTransitionStep (now : ℚ) (pt : Option PatternTransitionState)
    (artPattern : List (List ℕ)) : PatternUpdateResult :=
  match pt with
  | none => ⟨none, artPattern, false⟩
  | some t =>
    let progress := min ((now - t.startTime) / t.duration) 1
    match t.strategy with
    | .morph | .crossfade =>
        if 1 ≤ progress then ⟨none, artPattern, false⟩
        else ⟨some t, artPattern, false⟩
    | .fade =>
        match t.phase with
        | .fadeOut =>
            if 1 / 2 ≤ progress then
              let setupNeeded :=
                decide (patternCols t.oldPattern < patternCols t.newPattern) ||
                decide (patternRows t.oldPattern < patternRows t.newPattern)
              ⟨some { t with phase := .fadeIn }, t.newPattern, setupNeeded⟩
            else ⟨some t, artPattern, false⟩
        | .fadeIn =>
            if 1 ≤ progress then ⟨none, artPattern, false⟩
            else ⟨some t, artPattern, false⟩
        | .morphing => ⟨some t, artPattern, false⟩
    | .instant => ⟨some t, artPattern, false⟩

/-- An RGB color triple, as parsed by `parseRgbToIntArray`
(src/utils/color.ts) into a Uint8ClampedArray of three 8-bit channels. -/
structure RGB where
  r : ℕ
  g : ℕ
  b : ℕ
deriving DecidableEq, Repr

/-- The channel clamping of the interpolation factor in
`getInterpolatedColor` (src/utils/color.ts). -/
def clampFactor (factor : ℚ) : ℚ :=
  if factor < 0 then 0 else if 1 < factor then 1 else factor

/-- One interpolated 8-bit channel: `(base + (active - base) * factor + 0.5) | 0`. -/
def interpChannel (base active : ℕ) (factor : ℚ) : ℕ :=
  (ratTrunc ((base : ℚ) + ((active : ℚ) - (base : ℚ)) * factor + 1 / 2)).toNat

/-- The 24-bit numeric cache key `(r << 16) | (g << 8) | b`. -/
def colorKey (r g b : ℕ) : ℕ :=
  (r <<< 16) ||| (g <<< 8) ||| b

/-- The rendered color string rgb(r, g, b). -/
def colorString (r g b : ℕ) : String :=
  "rgb(" ++ toString r ++ ", " ++ toString g ++ ", " ++ toString b ++ ")"

/-- src/utils/color.ts `getInterpolatedColor`: interpolate between the base
and active colors by the factor derived from the LED's current size, with
the insertion-ordered memo cache; on a miss with a full cache the oldest
half of the entries (in insertion order) is deleted before inserting.
Returns the color string and the cache afterwards. -/
def getInterpolatedColor (currentSize : ℚ) (baseColor activeColor : RGB)
    (minSize maxSize : ℚ) (colorCache : List (ℕ × String)) (maxCacheSize : ℕ) :
    String × List (ℕ × String) :=
  if maxSize = minSize then
    (colorString baseColor.r baseColor.g baseColor.b, colorCache)
  else
    let factor := clampFactor ((currentSize - minSize) / (maxSize - minSize))
    let r := interpChannel baseColor.r activeColor.r factor
    let g := interpChannel baseColor.g activeColor.g factor
    let b := interpChannel baseColor.b activeColor.b factor
    let cacheKey := colorKey r g b
    match colorCache.lookup cacheKey with
    | some s => (s, colorCache)
    | none =>
        let s := colorString r g b
        let cache1 :=
          if maxCacheSize ≤ colorCache.length then colorCache.drop (maxCacheSize / 2)
          else colorCache
        (s, cache1 ++ [(cacheKey, s)])

/-! Helper notions used by several statements below. -/

/-- The lifespan bookkeeping performed by `updateSingleLedState` on a tick
whose target does not change: in sparse mode an off cell with remaining
lifespan loses one frame. -/
def lifespanAfterIdle (led : LedState) (isSparse : Bool) : ℤ :=
  if isSparse = true ∧ led.targetArtValue = 0 ∧ 0 < led.lifespan then led.lifespan - 1
  else led.lifespan

/-- The size a transitioning LED reaches after one legacy lerp step. -/
def legacyStepSize (led : LedState) : ℚ :=
  led.currentSize + (led.targetSize - led.currentSize) * led.transitionSpeed

/-- The opacity a transitioning LED reaches after one legacy lerp step. -/
def legacyStepOpacity (led : LedState) : ℚ :=
  led.currentOpacity + (led.targetOpacity - led.currentOpacity) * led.transitionSpeed

/-- The completion test of the legacy transition: both channels within the
absolute tolerance 0.01 of their targets after the step. -/
def legacyFinished (led : LedState) : Prop :=
  |legacyStepSize led - led.targetSize| < 1 / 100 ∧
  |legacyStepOpacity led - led.targetOpacity| < 1 / 100

instance (led : LedState) : Decidable (legacyFinished led) := by
  unfold legacyFinished; infer_instance

/-- Claim C10: advancing a settled cell (neither delayed nor transitioning)
with an unchanged target is a no-op on its animation state; the only change
is the sparse-mode lifespan decrement when the target is 0 and lifespan is
positive. -/
theorem c10_settled_cell_unchanged_target_noop
    (led : LedState) (opts : LeddingOptions) (dims : DimensionsCache) (isSparse : Bool)
    (numCols numRows : ℕ) (now rand randDelay : ℚ)
    (hd : led.isDelayed = false) (ht : led.isTransitioning = false) :
    updateSingleLedState led led.targetArtValue opts dims isSparse numCols numRows
        now rand randDelay =
      { led with lifespan := lifespanAfterIdle led isSparse } := by
  unfold updateSingleLedState
  cases isSparse with
  | false => simp [hd, ht, lifespanAfterIdle]
  | true =>
      by_cases hc : led.targetArtValue = 0 ∧ 0 < led.lifespan
      · simp [hd, ht, hc, lifespanAfterIdle]
      · simp [hd, ht, hc, lifespanAfterIdle]

/-- A concrete legacy speed-based configuration used as witness input. -/
def demoOpts : LeddingOptions :=
  { transitions :=
      { ignition := .speedBased (1 / 10) (1 / 2) false,
        extinction := .speedBased (1 / 10) (1 / 2) false,
        morph := .speedBased (1 / 10) (1 / 2) false },
    animation :=
      { ignition := { pattern := .cascade, direction := .toRight, delay := 2, step := 3 },
        extinction := { pattern := .cascade, direction := .toRight, delay := 2, step := 3 } },
    opacities := { baseMin := 1 / 10, baseMax := 3 / 10, active := 1 },
    grid := { fill := false, lifespan := 60 } }

/-- A concrete dimensions cache used as witness input (LED size 10, gap 2). -/
def demoDims : DimensionsCache :=
  { scaledLedSize := 10, scaledLedGap := 2, ledFullSize := 12,
    gridWidthPx := 120, gridHeightPx := 120, minSize := 2, maxSize := 10 }

/-- A freshly created, settled demo LED. -/
def demoSettledLed : LedState := createLedObject 1 2 2 (1 / 5) demoOpts

/-- Witness for C10 at a concrete settled sparse-mode LED. -/
theorem c10_witness :
    demoSettledLed.isDelayed = false ∧ demoSettledLed.isTransitioning = false ∧
    updateSingleLedState demoSettledLed demoSettledLed.targetArtValue demoOpts demoDims
        true 10 10 0 0 0 =
      { demoSettledLed with lifespan := lifespanAfterIdle demoSettledLed true } :=
  ⟨by decide, by decide,
    c10_settled_cell_unchanged_target_noop demoSettledLed demoOpts demoDims true 10 10 0 0 0
      (by decide) (by decide)⟩

/-- Claim C4: a transitioning cell whose target is unchanged advances by
`current += (target - current) * speed` on both channels, completes exactly
when both channels land within the absolute tolerance 0.01 of their
targets, snapping to the targets, committing `currentArtValue`, clearing
the transitioning flag and resetting `artValueForColor` when the settled
value is 0; with speed 1 the step always completes. -/
theorem c4_legacy_transition_step
    (led : LedState) (opts : LeddingOptions) (dims : DimensionsCache) (isSparse : Bool)
    (numCols numRows : ℕ) (now rand randDelay : ℚ)
    (hd : led.isDelayed = false) (ht : led.isTransitioning = true) :
    (updateSingleLedState led led.targetArtValue opts dims isSparse numCols numRows
        now rand randDelay =
      if legacyFinished led then
        { led with currentSize := led.targetSize, currentOpacity := led.targetOpacity,
                   currentArtValue := led.targetArtValue, isTransitioning := false,
                   artValueForColor := if led.targetArtValue = 0 then 0
                                       else led.artValueForColor,
                   lifespan := lifespanAfterIdle led isSparse }
      else
        { led with currentSize := legacyStepSize led,
                   currentOpacity := legacyStepOpacity led,
                   lifespan := lifespanAfterIdle led isSparse })
    ∧ (led.transitionSpeed = 1 → legacyFinished led) := by
  constructor
  · unfold updateSingleLedState
    cases isSparse with
    | false =>
        by_cases hf : legacyFinished led <;>
          by_cases hz : led.targetArtValue = 0 <;>
            simp [hd, ht, hf, hz, lifespanAfterIdle, legacyFinished, legacyStepSize,
              legacyStepOpacity] at *
    | true =>
        by_cases hz : led.targetArtValue = 0 <;>
          by_cases hl : 0 < led.lifespan <;>
            by_cases hf : legacyFinished led <;>
              simp [hd, ht, hz, hl, hf, lifespanAfterIdle, legacyFinished, legacyStepSize,
                legacyStepOpacity] at *
  · intro h1
    have e1 : led.currentSize + (led.targetSize - led.currentSize) * 1 - led.targetSize = 0 := by
      ring
    have e2 : led.currentOpacity + (led.targetOpacity - led.currentOpacity) * 1
        - led.targetOpacity = 0 := by ring
    unfold legacyFinished legacyStepSize legacyStepOpacity
    rw [h1]
    rw [e1, e2]
    norm_num

/-- A demo LED caught mid-transition (ignited toward value 1). -/
def demoTransitioningLed : LedState :=
  { demoSettledLed with isTransitioning := true, targetArtValue := 1, targetSize := 10,
                        targetOpacity := 1, transitionSpeed := 1 / 2, artValueForColor := 1 }

/-- Witness for C4 at a concrete transitioning LED. -/
theorem c4_witness :
    demoTransitioningLed.isDelayed = false ∧ demoTransitioningLed.isTransitioning = true ∧
    ((updateSingleLedState demoTransitioningLed demoTransitioningLed.targetArtValue demoOpts
        demoDims false 10 10 0 0 0 =
      if legacyFinished demoTransitioningLed then
        { demoTransitioningLed with
            currentSize := demoTransitioningLed.targetSize,
            currentOpacity := demoTransitioningLed.targetOpacity,
            currentArtValue := demoTransitioningLed.targetArtValue,
            isTransitioning := false,
            artValueForColor := if demoTransitioningLed.targetArtValue = 0 then 0
                                else demoTransitioningLed.artValueForColor,
            lifespan := lifespanAfterIdle demoTransitioningLed false }
      else
        { demoTransitioningLed with
            currentSize := legacyStepSize demoTransitioningLed,
            currentOpacity := legacyStepOpacity demoTransitioningLed,
            lifespan := lifespanAfterIdle demoTransitioningLed false })
    ∧ (demoTransitioningLed.transitionSpeed = 1 → legacyFinished demoTransitioningLed)) :=
  ⟨by decide, by decide,
    c4_legacy_transition_step demoTransitioningLed demoOpts demoDims false 10 10 0 0 0
      (by decide) (by decide)⟩

/-- The value `prepareTransition` leaves in `artValueForColor`, as a closed
formula over the previous (`currentArtValue`) and new target values. -/
theorem prepareTransition_artValueForColor
    (led : LedState) (target : ℕ) (opts : LeddingOptions) (dims : DimensionsCache)
    (numCols numRows : ℕ) (now rand randDelay : ℚ) :
    (prepareTransition led target opts dims numCols numRows now rand randDelay).1.artValueForColor
      = if 0 < target ∧ led.currentArtValue = 0 then target
        else if target = 0 ∧ 0 < led.currentArtValue then led.currentArtValue
        else if 0 < target then target
        else led.artValueForColor := by
  unfold prepareTransition
  rcases Nat.eq_zero_or_pos target with hpos | hpos
  · rcases Nat.eq_zero_or_pos led.currentArtValue with hz | hz
    · cases hC : opts.transitions.morph <;>
        simp [hpos, hz, hC, apply_ite (LedState.artValueForColor)]
    · cases hC : opts.transitions.extinction <;>
        simp [hpos, hz, Nat.pos_iff_ne_zero.mp hz, hC,
          apply_ite (LedState.artValueForColor)]
  · rcases Nat.eq_zero_or_pos led.currentArtValue with hz | hz
    · cases hC : opts.transitions.ignition <;>
        simp [hpos, Nat.pos_iff_ne_zero.mp hpos, hz, hC,
          apply_ite (LedState.artValueForColor)]
    · cases hC : opts.transitions.morph <;>
        simp [hpos, Nat.pos_iff_ne_zero.mp hpos, hz, Nat.pos_iff_ne_zero.mp hz, hC,
          apply_ite (LedState.artValueForColor)]

/-- Claim C5: for a target different from the cell's current target,
`prepareTransition` classifies the change as exactly one of ignition
(0 to positive), extinction (positive to 0) or morph (otherwise), and sets
`artValueForColor` to the new target on ignition, to the previous value on
extinction, and on morph to the new target exactly when the new target is
active (leaving it unchanged otherwise). -/
theorem c5_transition_classification
    (led : LedState) (target : ℕ) (opts : LeddingOptions) (dims : DimensionsCache)
    (numCols numRows : ℕ) (now rand randDelay : ℚ)
    (hchange : target ≠ led.targetArtValue) :
    (((0 < target ∧ led.currentArtValue = 0) ∨ (target = 0 ∧ 0 < led.currentArtValue) ∨
        (¬(0 < target ∧ led.currentArtValue = 0) ∧ ¬(target = 0 ∧ 0 < led.currentArtValue)))
      ∧ ¬((0 < target ∧ led.currentArtValue = 0) ∧ (target = 0 ∧ 0 < led.currentArtValue)))
    ∧ ((0 < target ∧ led.currentArtValue = 0) →
        (prepareTransition led target opts dims numCols numRows now rand
            randDelay).1.artValueForColor = target)
    ∧ ((target = 0 ∧ 0 < led.currentArtValue) →
        (prepareTransition led target opts dims numCols numRows now rand
            randDelay).1.artValueForColor = led.currentArtValue)
    ∧ ((¬(0 < target ∧ led.currentArtValue = 0) ∧ ¬(target = 0 ∧ 0 < led.currentArtValue)) →
        (prepareTransition led target opts dims numCols numRows now rand
            randDelay).1.artValueForColor =
          if 0 < target then target else led.artValueForColor) := by
  refine ⟨⟨by tauto, by omega⟩, ?_, ?_, ?_⟩ <;>
    · intro hcase
      rw [prepareTransition_artValueForColor]
      simp [hcase]

/-- Witness for C5 at a concrete ignition (previous 0, target 1). -/
theorem c5_witness :
    ((1 : ℕ) ≠ demoSettledLed.targetArtValue) ∧
    ((((0 < 1 ∧ demoSettledLed.currentArtValue = 0) ∨
          (1 = 0 ∧ 0 < demoSettledLed.currentArtValue) ∨
          (¬(0 < 1 ∧ demoSettledLed.currentArtValue = 0) ∧
            ¬(1 = 0 ∧ 0 < demoSettledLed.currentArtValue)))
        ∧ ¬((0 < 1 ∧ demoSettledLed.currentArtValue = 0) ∧
            (1 = 0 ∧ 0 < demoSettledLed.currentArtValue)))
      ∧ ((0 < 1 ∧ demoSettledLed.currentArtValue = 0) →
          (prepareTransition demoSettledLed 1 demoOpts demoDims 10 10 0 0
              0).1.artValueForColor = 1)
      ∧ ((1 = 0 ∧ 0 < demoSettledLed.currentArtValue) →
          (prepareTransition demoSettledLed 1 demoOpts demoDims 10 10 0 0
              0).1.artValueForColor = demoSettledLed.currentArtValue)
      ∧ ((¬(0 < 1 ∧ demoSettledLed.currentArtValue = 0) ∧
            ¬(1 = 0 ∧ 0 < demoSettledLed.currentArtValue)) →
          (prepareTransition demoSettledLed 1 demoOpts demoDims 10 10 0 0
              0).1.artValueForColor =
            if 0 < 1 then 1 else demoSettledLed.artValueForColor)) :=
  ⟨by decide, c5_transition_classification demoSettledLed 1 demoOpts demoDims 10 10 0 0 0
    (by decide)⟩

/-- A configuration whose three transition phases are all duration-based
(duration 100 ms, linear easing), as documented in the repository's
transitions guide. -/
def durationOpts : LeddingOptions :=
  { transitions :=
      { ignition := .durationBased 100 "linear",
        extinction := .durationBased 100 "linear",
        morph := .durationBased 100 "linear" },
    animation :=
      { ignition := { pattern := .cascade, direction := .toRight, delay := 0, step := 1 },
        extinction := { pattern := .cascade, direction := .toRight, delay := 0, step := 1 } },
    opacities := { baseMin := 1 / 10, baseMax := 3 / 10, active := 1 },
    grid := { fill := true, lifespan := 60 } }

/-- A fresh LED at grid cell (0, 0), size 2 (= minSize), under the
duration-based configuration. -/
def c1FreshLed : LedState := createLedObject 0 0 2 (1 / 5) durationOpts

/-- The ignition tick at t = 0 ms: the pattern target becomes 1. -/
def c1StepIgnite : LedState :=
  updateSingleLedState c1FreshLed 1 durationOpts demoDims false 10 10 0 0 0

/-- A later tick at t = 200 ms, well past the 100 ms transition duration. -/
def c1StepLater : LedState :=
  updateSingleLedState c1StepIgnite 1 durationOpts demoDims false 10 10 200 0 0

/-- Claim C1 (refuted by the code): under a duration-based configuration
`prepareTransition` records the duration-based fields and zeroes
`transitionSpeed`, but `updateSingleLedState` advances only by
`current += (target - current) * transitionSpeed`; so the ignited cell is
still at its starting size/opacity, and still transitioning, on a tick at
t = 200 ms even though the transition duration is 100 ms — instead of
reaching its target and settling at progress 1 as the claim states. -/
theorem c1_duration_based_transition_never_advances :
    c1StepIgnite.useDurationBased = true ∧
    c1StepIgnite.transitionDuration = 100 ∧
    c1StepIgnite.transitionStartTime = 0 ∧
    c1StepIgnite.transitionSpeed = 0 ∧
    c1StepIgnite.isTransitioning = true ∧
    c1StepIgnite.targetSize = 10 ∧
    c1StepLater.currentSize = 2 ∧
    c1StepLater.currentOpacity = 1 / 5 ∧
    c1StepLater.isTransitioning = true := by
  have hstep : c1StepIgnite =
      { gridPosition := ⟨0, 0⟩, baseOpacity := 1 / 5, currentSize := 2, targetSize := 10,
        currentOpacity := 1 / 5, targetOpacity := 1, currentArtValue := 0, targetArtValue := 1,
        artValueForColor := 1, transitionSpeed := 0, delayTimer := 0, isTransitioning := true,
        isDelayed := false, lifespan := 0, transitionStartTime := 0, transitionDuration := 100,
        transitionEasing := "linear", startSize := 2, startOpacity := 1 / 5,
        useDurationBased := true } := by
    unfold c1StepIgnite c1FreshLed updateSingleLedState prepareTransition createLedObject
      calculateDelay finalIndexOf getCascadeIndex durationOpts demoDims
    norm_num
  refine ⟨by rw [hstep], by rw [hstep], by rw [hstep], by rw [hstep], by rw [hstep],
    by rw [hstep], ?_, ?_, ?_⟩ <;>
  · unfold c1StepLater
    rw [hstep]
    unfold updateSingleLedState
    norm_num

/-- In a list with pairwise distinct keys, two entries with the same key
are the same entry. -/
theorem mem_eq_of_nodup_keys {α β : Type} {l : List (α × β)}
    (h : (l.map Prod.fst).Nodup) {a b : α × β} (ha : a ∈ l) (hb : b ∈ l)
    (hk : a.1 = b.1) : a = b := by
  induction l with
  | nil => cases ha
  | cons hd tl ih =>
      simp only [List.map_cons, List.nodup_cons, List.mem_map] at h
      rcases List.mem_cons.mp ha with rfl | ha' <;> rcases List.mem_cons.mp hb with rfl | hb'
      · rfl
      · exact absurd ⟨b, hb', hk.symm⟩ h.1
      · exact absurd ⟨a, ha', hk⟩ h.1
      · exact ih h.2 ha' hb'

/-- Every entry the sweep keeps has the key of the entry it came from. -/
theorem updateSparseSweep_entry_key
    (activeLedsKeys : List (ℤ × ℤ)) (opts : LeddingOptions) (dims : DimensionsCache)
    (numCols numRows : ℕ) (now : ℚ) (rand randDelay : (ℤ × ℤ) → ℚ)
    (kv out : (ℤ × ℤ) × LedState)
    (h : (if kv.1 ∈ activeLedsKeys then some kv
          else
            let led := updateSingleLedState kv.2 0 opts dims true numCols numRows
                now (rand kv.1) (randDelay kv.1)
            if led.currentArtValue = 0 ∧ led.lifespan ≤ 0 then none
            else some (kv.1, led)) = some out) :
    out.1 = kv.1 := by
  by_cases h1 : kv.1 ∈ activeLedsKeys
  · simp [h1] at h
    rw [← h]
  · by_cases h2 : (updateSingleLedState kv.2 0 opts dims true numCols numRows
        now (rand kv.1) (randDelay kv.1)).currentArtValue = 0 ∧
        (updateSingleLedState kv.2 0 opts dims true numCols numRows
          now (rand kv.1) (randDelay kv.1)).lifespan ≤ 0
    · simp [h1, h2] at h
    · simp [h1, h2] at h
      rw [← h]

/-- Claim C3: a sparse cell not touched by the active pass is advanced
toward target 0 by the sweep, and it is removed from the map if and only
if, after that advance, `currentArtValue = 0` and `lifespan ≤ 0`; in
particular a cell still fading (positive art value or remaining lifespan)
stays in the map, carrying its advanced state. -/
theorem c3_sparse_cell_eviction
    (ledsMap : List ((ℤ × ℤ) × LedState)) (activeLedsKeys : List (ℤ × ℤ))
    (opts : LeddingOptions) (dims : DimensionsCache) (numCols numRows : ℕ)
    (now : ℚ) (rand randDelay : (ℤ × ℤ) → ℚ) (k : ℤ × ℤ) (led : LedState)
    (hmem : (k, led) ∈ ledsMap) (hnodup : (ledsMap.map Prod.fst).Nodup)
    (huntouched : k ∉ activeLedsKeys) :
    (((updateSingleLedState led 0 opts dims true numCols numRows now (rand k)
          (randDelay k)).currentArtValue = 0 ∧
      (updateSingleLedState led 0 opts dims true numCols numRows now (rand k)
          (randDelay k)).lifespan ≤ 0) →
        k ∉ (updateSparseSweep ledsMap activeLedsKeys opts dims numCols numRows now rand
            randDelay).map Prod.fst)
    ∧ (¬((updateSingleLedState led 0 opts dims true numCols numRows now (rand k)
          (randDelay k)).currentArtValue = 0 ∧
        (updateSingleLedState led 0 opts dims true numCols numRows now (rand k)
          (randDelay k)).lifespan ≤ 0) →
        (k, updateSingleLedState led 0 opts dims true numCols numRows now (rand k)
            (randDelay k)) ∈
          updateSparseSweep ledsMap activeLedsKeys opts dims numCols numRows now rand
            randDelay) := by
  constructor
  · intro hev hk
    rcases List.mem_map.mp hk with ⟨b, hb, hbk⟩
    rcases List.mem_filterMap.mp hb with ⟨a, ha, hfa⟩
    have hak : b.1 = a.1 :=
      updateSparseSweep_entry_key activeLedsKeys opts dims numCols numRows now rand
        randDelay a b hfa
    have haeq : a = (k, led) :=
      mem_eq_of_nodup_keys hnodup ha hmem (by rw [← hak, hbk])
    rw [haeq] at hfa
    simp only [huntouched, if_neg, if_false] at hfa
    simp [hev] at hfa
  · intro hkeep
    refine List.mem_filterMap.mpr ⟨(k, led), hmem, ?_⟩
    simp [huntouched, hkeep]

/-- Witness for C3: a one-cell sparse map whose only cell is untouched. -/
theorem c3_witness :
    (((0 : ℤ), (0 : ℤ)), demoSettledLed) ∈ [(((0 : ℤ), (0 : ℤ)), demoSettledLed)] ∧
    (([(((0 : ℤ), (0 : ℤ)), demoSettledLed)].map Prod.fst).Nodup) ∧
    (((0 : ℤ), (0 : ℤ)) ∉ ([] : List (ℤ × ℤ))) ∧
    ((((updateSingleLedState demoSettledLed 0 demoOpts demoDims true 10 10 0
          ((fun _ => (0 : ℚ)) (0, 0)) ((fun _ => (0 : ℚ)) (0, 0))).currentArtValue = 0 ∧
      (updateSingleLedState demoSettledLed 0 demoOpts demoDims true 10 10 0
          ((fun _ => (0 : ℚ)) (0, 0)) ((fun _ => (0 : ℚ)) (0, 0))).lifespan ≤ 0) →
        ((0 : ℤ), (0 : ℤ)) ∉ (updateSparseSweep [(((0 : ℤ), (0 : ℤ)), demoSettledLed)] []
            demoOpts demoDims 10 10 0 (fun _ => 0) (fun _ => 0)).map Prod.fst)
    ∧ (¬((updateSingleLedState demoSettledLed 0 demoOpts demoDims true 10 10 0
          ((fun _ => (0 : ℚ)) (0, 0)) ((fun _ => (0 : ℚ)) (0, 0))).currentArtValue = 0 ∧
        (updateSingleLedState demoSettledLed 0 demoOpts demoDims true 10 10 0
          ((fun _ => (0 : ℚ)) (0, 0)) ((fun _ => (0 : ℚ)) (0, 0))).lifespan ≤ 0) →
        (((0 : ℤ), (0 : ℤ)), updateSingleLedState demoSettledLed 0 demoOpts demoDims true
            10 10 0 ((fun _ => (0 : ℚ)) (0, 0)) ((fun _ => (0 : ℚ)) (0, 0))) ∈
          updateSparseSweep [(((0 : ℤ), (0 : ℤ)), demoSettledLed)] [] demoOpts demoDims
            10 10 0 (fun _ => 0) (fun _ => 0))) :=
  ⟨by simp, by simp, by simp,
    c3_sparse_cell_eviction [(((0 : ℤ), (0 : ℤ)), demoSettledLed)] [] demoOpts demoDims
      10 10 0 (fun _ => 0) (fun _ => 0) ((0 : ℤ), (0 : ℤ)) demoSettledLed
      (by simp) (by simp) (by simp)⟩

/-- Claim C8: for every base pixel position and scroll offset (arbitrarily
large or negative), and any positive grid pixel extent, the wrapped
coordinate computed by the update path (`getArtValueAt`) and the draw path
(`Ledding.draw`) lies in the half-open interval from 0 (inclusive) to the
extent (exclusive). -/
theorem c8_wrap_coord_in_range (base scroll extent : ℚ) (hx : 0 < extent) :
    0 ≤ wrapCoord base scroll extent ∧ wrapCoord base scroll extent < extent := by
  have hne : extent ≠ 0 := ne_of_gt hx
  unfold wrapCoord jsMod ratTrunc
  by_cases hneg : (base + scroll) / extent < 0
  · rw [if_pos hneg]
    have hbs : base + scroll = (base + scroll) / extent * extent := by field_simp
    have h1 : (base + scroll) / extent ≤ (⌈(base + scroll) / extent⌉ : ℚ) :=
      Int.le_ceil _
    have h2 : (⌈(base + scroll) / extent⌉ : ℚ) < (base + scroll) / extent + 1 :=
      Int.ceil_lt_add_one _
    have hr_le : base + scroll - extent * (⌈(base + scroll) / extent⌉ : ℚ) ≤ 0 := by
      nlinarith
    have hr_gt : -extent < base + scroll - extent * (⌈(base + scroll) / extent⌉ : ℚ) := by
      nlinarith
    by_cases hy : base + scroll - extent * (⌈(base + scroll) / extent⌉ : ℚ) < 0
    · rw [if_pos hy]
      constructor <;> nlinarith
    · rw [if_neg hy]
      constructor <;> nlinarith
  · rw [if_neg hneg]
    have hbs : base + scroll = (base + scroll) / extent * extent := by field_simp
    have h1 : (⌊(base + scroll) / extent⌋ : ℚ) ≤ (base + scroll) / extent :=
      Int.floor_le _
    have h2 : (base + scroll) / extent < (⌊(base + scroll) / extent⌋ : ℚ) + 1 :=
      Int.lt_floor_add_one _
    have hr_ge : 0 ≤ base + scroll - extent * (⌊(base + scroll) / extent⌋ : ℚ) := by
      nlinarith
    have hr_lt : base + scroll - extent * (⌊(base + scroll) / extent⌋ : ℚ) < extent := by
      nlinarith
    rw [if_neg (not_lt.mpr hr_ge)]
    exact ⟨hr_ge, hr_lt⟩

/-- Witness for C8: a large negative scroll on the demo grid. -/
theorem c8_witness :
    (0 : ℚ) < 120 ∧
    (0 ≤ wrapCoord 36 (-1000001 / 2) 120 ∧ wrapCoord 36 (-1000001 / 2) 120 < 120) :=
  ⟨by norm_num, c8_wrap_coord_in_range 36 (-1000001 / 2) 120 (by norm_num)⟩

/-- Claim C7: the computed delay is the final cascade index times the
per-step delay (step clamped to at least 1); hence, for the `cascade`
pattern with direction to-right and a nonnegative delay the delay is
non-decreasing in the column index (strictly increasing for a positive
delay), and for `interlaced` with step S at least 1 two cells whose
directional cascade indices are congruent modulo S get identical delays. -/
theorem c7_cascade_ordering_and_interlaced_classes
    (i1 j1 i2 j2 w h : ℤ) (dl : ℚ) (S : ℤ) (r1 r2 : ℚ)
    (a1 b1 a2 b2 w2 h2 : ℤ) (dl2 : ℚ) (S2 : ℤ) (r3 r4 : ℚ) (dir : Direction)
    (hd : 0 ≤ dl) (hi : i1 ≤ i2) (hS2 : 1 ≤ S2)
    (hc1 : 0 ≤ getCascadeIndex a1 b1 w2 h2 dir)
    (hc2 : 0 ≤ getCascadeIndex a2 b2 w2 h2 dir)
    (hcong : getCascadeIndex a1 b1 w2 h2 dir ≡ getCascadeIndex a2 b2 w2 h2 dir [ZMOD S2]) :
    (calculateDelay i1 j1 w h ⟨.cascade, .toRight, dl, S⟩ r1 ≤
      calculateDelay i2 j2 w h ⟨.cascade, .toRight, dl, S⟩ r2)
    ∧ (0 < dl → i1 < i2 →
        calculateDelay i1 j1 w h ⟨.cascade, .toRight, dl, S⟩ r1 <
          calculateDelay i2 j2 w h ⟨.cascade, .toRight, dl, S⟩ r2)
    ∧ (calculateDelay a1 b1 w2 h2 ⟨.interlaced, dir, dl2, S2⟩ r3 =
        calculateDelay a2 b2 w2 h2 ⟨.interlaced, dir, dl2, S2⟩ r4) := by
  refine ⟨?_, ?_, ?_⟩
  · simp only [calculateDelay, finalIndexOf, getCascadeIndex]
    exact mul_le_mul_of_nonneg_right (by exact_mod_cast hi) hd
  · intro hdl hlt
    simp only [calculateDelay, finalIndexOf, getCascadeIndex]
    exact mul_lt_mul_of_pos_right (by exact_mod_cast hlt) hdl
  · simp only [calculateDelay, finalIndexOf]
    have hmax : max 1 S2 = S2 := max_eq_right hS2
    have h1 : Int.tmod (getCascadeIndex a1 b1 w2 h2 dir) S2 =
        getCascadeIndex a1 b1 w2 h2 dir % S2 := Int.tmod_eq_emod hc1 (by omega)
    have h2 : Int.tmod (getCascadeIndex a2 b2 w2 h2 dir) S2 =
        getCascadeIndex a2 b2 w2 h2 dir % S2 := Int.tmod_eq_emod hc2 (by omega)
    rw [hmax, h1, h2, hcong]

/-- Witness for C7: columns 1 and 3 of a 10 by 10 grid with delay 2, and an
interlaced step of 3 with cascade indices 1 and 4. -/
theorem c7_witness :
    ((0 : ℚ) ≤ 2 ∧ (1 : ℤ) ≤ 3 ∧ (1 : ℤ) ≤ 3 ∧
      0 ≤ getCascadeIndex 1 0 10 10 .toRight ∧ 0 ≤ getCascadeIndex 4 5 10 10 .toRight ∧
      getCascadeIndex 1 0 10 10 .toRight ≡ getCascadeIndex 4 5 10 10 .toRight [ZMOD 3]) ∧
    ((calculateDelay 1 0 10 10 ⟨.cascade, .toRight, 2, 3⟩ 0 ≤
        calculateDelay 3 5 10 10 ⟨.cascade, .toRight, 2, 3⟩ 0)
      ∧ (0 < (2 : ℚ) → (1 : ℤ) < 3 →
          calculateDelay 1 0 10 10 ⟨.cascade, .toRight, 2, 3⟩ 0 <
            calculateDelay 3 5 10 10 ⟨.cascade, .toRight, 2, 3⟩ 0)
      ∧ (calculateDelay 1 0 10 10 ⟨.interlaced, .toRight, 2, 3⟩ 0 =
          calculateDelay 4 5 10 10 ⟨.interlaced, .toRight, 2, 3⟩ 0)) :=
  ⟨⟨by norm_num, by norm_num, by norm_num, by decide, by decide, by decide⟩,
    c7_cascade_ordering_and_interlaced_classes 1 0 3 5 10 10 2 3 0 0 1 0 4 5 10 10 2 3 0 0
      .toRight (by norm_num) (by norm_num) (by norm_num) (by decide) (by decide) (by decide)⟩

/-- Dropping a prefix of an association list cannot make an absent key
present. -/
theorem lookup_drop_none {k : ℕ} {l : List (ℕ × String)}
    (h : l.lookup k = none) (n : ℕ) : (l.drop n).lookup k = none := by
  induction l generalizing n with
  | nil => simp
  | cons hd tl ih =>
      cases n with
      | zero => simpa using h
      | succ n =>
          rw [List.drop_succ_cons]
          apply ih
          rcases hd with ⟨k1, s1⟩
          simp only [List.lookup] at h
          cases hbe : k == k1
          · rw [hbe] at h
            exact h
          · rw [hbe] at h
            cases h

/-- Appending a fresh key binding at the tail makes lookup find it. -/
theorem lookup_append_fresh {k : ℕ} {l : List (ℕ × String)}
    (h : l.lookup k = none) (s : String) : (l ++ [(k, s)]).lookup k = some s := by
  induction l with
  | nil => simp [List.lookup]
  | cons hd tl ih =>
      rcases hd with ⟨k1, s1⟩
      simp only [List.lookup] at h
      simp only [List.cons_append, List.lookup]
      cases hbe : k == k1
      · rw [hbe] at h
        exact ih h
      · rw [hbe] at h
        cases h

/-- Claim C9: interpolating the same base color, active color and factor
input twice returns the identical cached string and leaves the cache
unchanged on the second call, and one interpolation step keeps the cache
size within the configured maximum (the default maximum is 1000), because
a miss with a full cache first evicts the oldest half of the entries in
insertion order. -/
theorem c9_color_cache_idempotent_and_bounded
    (currentSize : ℚ) (baseColor activeColor : RGB) (minSize maxSize : ℚ)
    (colorCache : List (ℕ × String)) (maxCacheSize : ℕ)
    (hM : 2 ≤ maxCacheSize) (hlen : colorCache.length ≤ maxCacheSize) :
    ((getInterpolatedColor currentSize baseColor activeColor minSize maxSize
        (getInterpolatedColor currentSize baseColor activeColor minSize maxSize colorCache
          maxCacheSize).2 maxCacheSize).1 =
      (getInterpolatedColor currentSize baseColor activeColor minSize maxSize colorCache
        maxCacheSize).1)
    ∧ ((getInterpolatedColor currentSize baseColor activeColor minSize maxSize
        (getInterpolatedColor currentSize baseColor activeColor minSize maxSize colorCache
          maxCacheSize).2 maxCacheSize).2 =
      (getInterpolatedColor currentSize baseColor activeColor minSize maxSize colorCache
        maxCacheSize).2)
    ∧ (getInterpolatedColor currentSize baseColor activeColor minSize maxSize colorCache
        maxCacheSize).2.length ≤ maxCacheSize := by
  by_cases hms : maxSize = minSize
  · unfold getInterpolatedColor
    simp [hms, hlen]
  · rcases hl : colorCache.lookup (colorKey
        (interpChannel baseColor.r activeColor.r
          (clampFactor ((currentSize - minSize) / (maxSize - minSize))))
        (interpChannel baseColor.g activeColor.g
          (clampFactor ((currentSize - minSize) / (maxSize - minSize))))
        (interpChannel baseColor.b activeColor.b
          (clampFactor ((currentSize - minSize) / (maxSize - minSize))))) with _ | s
    · -- miss: the entry is inserted, the second call hits it
      have h1 : ∀ n, ((colorCache.drop n).lookup (colorKey
          (interpChannel baseColor.r activeColor.r
            (clampFactor ((currentSize - minSize) / (maxSize - minSize))))
          (interpChannel baseColor.g activeColor.g
            (clampFactor ((currentSize - minSize) / (maxSize - minSize))))
          (interpChannel baseColor.b activeColor.b
            (clampFactor ((currentSize - minSize) / (maxSize - minSize)))))) = none :=
        fun n => lookup_drop_none hl n
      unfold getInterpolatedColor
      rw [if_neg hms, if_neg hms]
      simp only [hl]
      by_cases hfull : maxCacheSize ≤ colorCache.length
      · simp only [hfull, if_true, if_pos hfull]
        rw [lookup_append_fresh (h1 (maxCacheSize / 2))]
        refine ⟨rfl, rfl, ?_⟩
        simp only [List.length_append, List.length_drop, List.length_singleton]
        omega
      · simp only [hfull, if_false, if_neg hfull]
        rw [lookup_append_fresh hl]
        refine ⟨rfl, rfl, ?_⟩
        simp only [List.length_append, List.length_singleton]
        omega
    · -- hit: nothing changes
      unfold getInterpolatedColor
      rw [if_neg hms, if_neg hms]
      simp only [hl]
      exact ⟨trivial, trivial, hlen⟩

/-- Witness for C9: an empty cache with the default maximum size 1000. -/
theorem c9_witness :
    (2 ≤ 1000 ∧ ([] : List (ℕ × String)).length ≤ 1000) ∧
    (((getInterpolatedColor 5 ⟨0, 0, 0⟩ ⟨255, 128, 0⟩ 2 10
        (getInterpolatedColor 5 ⟨0, 0, 0⟩ ⟨255, 128, 0⟩ 2 10 [] 1000).2 1000).1 =
      (getInterpolatedColor 5 ⟨0, 0, 0⟩ ⟨255, 128, 0⟩ 2 10 [] 1000).1)
    ∧ ((getInterpolatedColor 5 ⟨0, 0, 0⟩ ⟨255, 128, 0⟩ 2 10
        (getInterpolatedColor 5 ⟨0, 0, 0⟩ ⟨255, 128, 0⟩ 2 10 [] 1000).2 1000).2 =
      (getInterpolatedColor 5 ⟨0, 0, 0⟩ ⟨255, 128, 0⟩ 2 10 [] 1000).2)
    ∧ (getInterpolatedColor 5 ⟨0, 0, 0⟩ ⟨255, 128, 0⟩ 2 10 [] 1000).2.length ≤ 1000) :=
  ⟨⟨by norm_num, by simp⟩,
    c9_color_cache_idempotent_and_bounded 5 ⟨0, 0, 0⟩ ⟨255, 128, 0⟩ 2 10 [] 1000
      (by norm_num) (by simp)⟩

/-- Counterexample to C6 as stated: when the first update after the fade
starts already sees progress ≥ 1 (here t0 = 0, duration 1000, update at
t = 1500, still in the fadeOut phase), that update does not clear the
transition state — it only switches the phase to fadeIn, and the state is
cleared one update later. -/
theorem c6_counterexample :
    (1 : ℚ) ≤ min ((1500 - 0) / 1000) 1 ∧
    (updatePatternTransitionStep 1500
        (some { strategy := .fade, startTime := 0, duration := 1000, easing := "linear",
                oldPattern := [[1]], newPattern := [[2]], phase := .fadeOut })
        (zeroPattern 1 1)).transition ≠ none := by
  constructor
  · norm_num
  · unfold updatePatternTransitionStep
    norm_num
    simp

/-- Claim C6 (amended): after `setPattern` with strategy fade and positive
duration, the active pattern is the all-zero pattern with the old
pattern's dimensions and the phase is fadeOut; every update with progress
below 0.5 changes nothing; the first update with progress ≥ 0.5 switches
to fadeIn and installs the new pattern, requesting `setup` exactly when
the new pattern's bounding box exceeds the old one's; an update in the
fadeIn phase clears the transition state exactly when progress ≥ 1.
(When the first update past 0.5 already has progress ≥ 1, it performs the
fadeIn swap and the clearing happens on the following update.) -/
theorem c6_fade_two_phase_amended
    (t0 D : ℚ) (easing : String) (oldP newP : List (List ℕ))
    (now1 now2 now3 now4 : ℚ) (pat1 pat2 pat3 pat4 : List (List ℕ))
    (hD : 0 < D)
    (h1 : (now1 - t0) / D < 1 / 2) (h2 : 1 / 2 ≤ (now2 - t0) / D)
    (h3 : 1 ≤ (now3 - t0) / D) (h4 : (now4 - t0) / D < 1) :
    ((setPatternFade t0 D easing oldP newP).1 =
        zeroPattern (patternRows oldP) (patternCols oldP)
      ∧ (setPatternFade t0 D easing oldP newP).2.phase = .fadeOut)
    ∧ (updatePatternTransitionStep now1 (some (setPatternFade t0 D easing oldP newP).2) pat1
        = ⟨some (setPatternFade t0 D easing oldP newP).2, pat1, false⟩)
    ∧ (updatePatternTransitionStep now2 (some (setPatternFade t0 D easing oldP newP).2) pat2
        = ⟨some { (setPatternFade t0 D easing oldP newP).2 with phase := .fadeIn }, newP,
            decide (patternCols oldP < patternCols newP) ||
              decide (patternRows oldP < patternRows newP)⟩)
    ∧ (updatePatternTransitionStep now3
          (some { (setPatternFade t0 D easing oldP newP).2 with phase := .fadeIn }) pat3
        = ⟨none, pat3, false⟩)
    ∧ (updatePatternTransitionStep now4
          (some { (setPatternFade t0 D easing oldP newP).2 with phase := .fadeIn }) pat4
        = ⟨some { (setPatternFade t0 D easing oldP newP).2 with phase := .fadeIn }, pat4,
            false⟩) := by
  refine ⟨⟨rfl, rfl⟩, ?_, ?_, ?_, ?_⟩
  · have hlt : min ((now1 - t0) / D) 1 < 1 / 2 :=
      lt_of_le_of_lt (min_le_left _ _) h1
    simp only [updatePatternTransitionStep, setPatternFade]
    rw [if_neg (not_le.mpr hlt)]
  · have hge : 1 / 2 ≤ min ((now2 - t0) / D) 1 := le_min h2 (by norm_num)
    simp only [updatePatternTransitionStep, setPatternFade]
    rw [if_pos hge]
  · have hge : 1 ≤ min ((now3 - t0) / D) 1 := le_min h3 (by norm_num)
    simp only [updatePatternTransitionStep, setPatternFade]
    rw [if_pos hge]
  · have hlt : min ((now4 - t0) / D) 1 < 1 :=
      lt_of_le_of_lt (min_le_left _ _) h4
    simp only [updatePatternTransitionStep, setPatternFade]
    rw [if_neg (not_le.mpr hlt)]

/-- Witness for C6 (amended): duration 1000 starting at t0 = 0, pattern
going from a 1-cell pattern to a wider one, probed at t = 200 (fadeOut),
t = 600 (fadeIn swap), t = 1100 (clear) and t = 900 (still fading in). -/
theorem c6_witness :
    ((0 : ℚ) < 1000 ∧ ((200 : ℚ) - 0) / 1000 < 1 / 2 ∧
      (1 : ℚ) / 2 ≤ ((600 : ℚ) - 0) / 1000 ∧ (1 : ℚ) ≤ ((1100 : ℚ) - 0) / 1000 ∧
      ((900 : ℚ) - 0) / 1000 < 1) ∧
    (((setPatternFade 0 1000 "linear" [[1]] [[2, 2]]).1 =
        zeroPattern (patternRows [[1]]) (patternCols [[1]])
      ∧ (setPatternFade 0 1000 "linear" [[1]] [[2, 2]]).2.phase = .fadeOut)
    ∧ (updatePatternTransitionStep 200 (some (setPatternFade 0 1000 "linear" [[1]]
          [[2, 2]]).2) [[0]]
        = ⟨some (setPatternFade 0 1000 "linear" [[1]] [[2, 2]]).2, [[0]], false⟩)
    ∧ (updatePatternTransitionStep 600 (some (setPatternFade 0 1000 "linear" [[1]]
          [[2, 2]]).2) [[0]]
        = ⟨some { (setPatternFade 0 1000 "linear" [[1]] [[2, 2]]).2 with phase := .fadeIn },
            [[2, 2]],
            decide (patternCols [[1]] < patternCols [[2, 2]]) ||
              decide (patternRows [[1]] < patternRows [[2, 2]])⟩)
    ∧ (updatePatternTransitionStep 1100
          (some { (setPatternFade 0 1000 "linear" [[1]] [[2, 2]]).2 with phase := .fadeIn })
          [[2, 2]]
        = ⟨none, [[2, 2]], false⟩)
    ∧ (updatePatternTransitionStep 900
          (some { (setPatternFade 0 1000 "linear" [[1]] [[2, 2]]).2 with phase := .fadeIn })
          [[2, 2]]
        = ⟨some { (setPatternFade 0 1000 "linear" [[1]] [[2, 2]]).2 with phase := .fadeIn },
            [[2, 2]], false⟩)) :=
  ⟨⟨by norm_num, by norm_num, by norm_num, by norm_num, by norm_num⟩,
    c6_fade_two_phase_amended 0 1000 "linear" [[1]] [[2, 2]] 200 600 1100 900
      [[0]] [[0]] [[2, 2]] [[2, 2]] (by norm_num) (by norm_num) (by norm_num) (by norm_num)
      (by norm_num)⟩

/-- Counterexample to C2 as stated: a resize-triggered `setup` with a
smaller container shrinks the grid.  With LED size 8 and gap 2 (pitch 10),
a sparse grid over a 100 by 100 canvas and a 3 by 3 pattern has
numCols = ceil(100 / 10) + 2 = 12; after the container shrinks to 50 by 50
the recomputed numCols is max(ceil(50 / 10) + 2, 3) = 7 < 12. -/
theorem c2_counterexample :
    (setupGridDims ⟨50, 50, 8, 2, false, true⟩ 3 3 3 3
        (setupGridDims ⟨100, 100, 8, 2, false, true⟩ 3 3 3 3 (0, 0))).1 <
      (setupGridDims ⟨100, 100, 8, 2, false, true⟩ 3 3 3 3 (0, 0)).1 := by
  norm_num [setupGridDims, ledFullSizeOf]

/-- The scaled LED pitch is positive on a positive canvas with a positive
configured pitch. -/
theorem ledFullSizeOf_pos (cfg : SetupConfig) (c r : ℕ)
    (hw : 0 < cfg.canvasW) (hh : 0 < cfg.canvasH)
    (hb : 0 < cfg.ledSize + cfg.ledGap) : 0 < ledFullSizeOf cfg c r := by
  simp only [ledFullSizeOf]
  split_ifs with h1 h2
  · exact mul_pos (lt_min (div_pos hw h1.2.1) (div_pos hh h1.2.2)) hb
  · exact hb
  · exact hb

/-- The scaled LED pitch never exceeds the configured pitch. -/
theorem ledFullSizeOf_le_base (cfg : SetupConfig) (c r : ℕ)
    (hb : 0 < cfg.ledSize + cfg.ledGap) :
    ledFullSizeOf cfg c r ≤ cfg.ledSize + cfg.ledGap := by
  simp only [ledFullSizeOf]
  split_ifs with h1 h2
  · nlinarith [mul_pos (sub_pos.mpr h2) hb]
  · exact le_refl _
  · exact le_refl _

/-- Growing the effective pattern bounding box can only shrink (never grow)
the scaled LED pitch. -/
theorem ledFullSizeOf_anti (cfg : SetupConfig) (c r c2 r2 : ℕ)
    (hw : 0 < cfg.canvasW) (hh : 0 < cfg.canvasH)
    (hb : 0 < cfg.ledSize + cfg.ledGap) (hc : c ≤ c2) (hr : r ≤ r2) :
    ledFullSizeOf cfg c2 r2 ≤ ledFullSizeOf cfg c r := by
  by_cases hcr : 0 < (c : ℚ) * (cfg.ledSize + cfg.ledGap) ∧
      0 < (r : ℚ) * (cfg.ledSize + cfg.ledGap)
  · by_cases hsf : cfg.scaleToFit = true
    · have hcc : (c : ℚ) * (cfg.ledSize + cfg.ledGap) ≤
          (c2 : ℚ) * (cfg.ledSize + cfg.ledGap) :=
        mul_le_mul_of_nonneg_right (by exact_mod_cast hc) hb.le
      have hrr : (r : ℚ) * (cfg.ledSize + cfg.ledGap) ≤
          (r2 : ℚ) * (cfg.ledSize + cfg.ledGap) :=
        mul_le_mul_of_nonneg_right (by exact_mod_cast hr) hb.le
      have hc2 : 0 < (c2 : ℚ) * (cfg.ledSize + cfg.ledGap) := lt_of_lt_of_le hcr.1 hcc
      have hr2 : 0 < (r2 : ℚ) * (cfg.ledSize + cfg.ledGap) := lt_of_lt_of_le hcr.2 hrr
      have hfle : min (cfg.canvasW / ((c2 : ℚ) * (cfg.ledSize + cfg.ledGap)))
            (cfg.canvasH / ((r2 : ℚ) * (cfg.ledSize + cfg.ledGap))) ≤
          min (cfg.canvasW / ((c : ℚ) * (cfg.ledSize + cfg.ledGap)))
            (cfg.canvasH / ((r : ℚ) * (cfg.ledSize + cfg.ledGap))) :=
        min_le_min (div_le_div_of_nonneg_left hw.le hcr.1 hcc)
          (div_le_div_of_nonneg_left hh.le hcr.2 hrr)
      have hA2 : cfg.scaleToFit = true ∧ 0 < (c2 : ℚ) * (cfg.ledSize + cfg.ledGap) ∧
          0 < (r2 : ℚ) * (cfg.ledSize + cfg.ledGap) := ⟨hsf, hc2, hr2⟩
      have hA1 : cfg.scaleToFit = true ∧ 0 < (c : ℚ) * (cfg.ledSize + cfg.ledGap) ∧
          0 < (r : ℚ) * (cfg.ledSize + cfg.ledGap) := ⟨hsf, hcr.1, hcr.2⟩
      simp only [ledFullSizeOf]
      rw [if_pos hA2, if_pos hA1]
      split_ifs with hf2 hf1 hf1
      · exact mul_le_mul_of_nonneg_right hfle hb.le
      · nlinarith [mul_pos (sub_pos.mpr hf2) hb]
      · exact absurd (lt_of_le_of_lt hfle hf1) hf2
      · exact le_refl _
    · simp only [ledFullSizeOf]
      rw [if_neg (fun hcon => hsf hcon.1), if_neg (fun hcon => hsf hcon.1)]
  · have hbase : ledFullSizeOf cfg c r = cfg.ledSize + cfg.ledGap := by
      simp only [ledFullSizeOf]
      rw [if_neg (fun hcon => hcr ⟨hcon.2.1, hcon.2.2⟩)]
    rw [hbase]
    exact ledFullSizeOf_le_base cfg c2 r2 hb

/-- Componentwise monotonicity of the grid dimensions computed by `setup`
at a fixed canvas size, as the effective pattern bounding box grows. -/
theorem setupGridDims_mono (cfg : SetupConfig) (a1 b1 m1 n1 a2 b2 m2 n2 : ℕ)
    (old1 old2 : ℤ × ℤ)
    (hw : 0 < cfg.canvasW) (hh : 0 < cfg.canvasH) (hb : 0 < cfg.ledSize + cfg.ledGap)
    (hcols : max a1 m1 ≤ max a2 m2) (hrows : max b1 n1 ≤ max b2 n2) :
    (setupGridDims cfg a1 b1 m1 n1 old1).1 ≤ (setupGridDims cfg a2 b2 m2 n2 old2).1 ∧
    (setupGridDims cfg a1 b1 m1 n1 old1).2 ≤ (setupGridDims cfg a2 b2 m2 n2 old2).2 := by
  have hL1 : 0 < ledFullSizeOf cfg (max a1 m1) (max b1 n1) :=
    ledFullSizeOf_pos cfg _ _ hw hh hb
  have hL2 : 0 < ledFullSizeOf cfg (max a2 m2) (max b2 n2) :=
    ledFullSizeOf_pos cfg _ _ hw hh hb
  have hLle : ledFullSizeOf cfg (max a2 m2) (max b2 n2) ≤
      ledFullSizeOf cfg (max a1 m1) (max b1 n1) :=
    ledFullSizeOf_anti cfg _ _ _ _ hw hh hb hcols hrows
  have hdivW : cfg.canvasW / ledFullSizeOf cfg (max a1 m1) (max b1 n1) ≤
      cfg.canvasW / ledFullSizeOf cfg (max a2 m2) (max b2 n2) :=
    div_le_div_of_nonneg_left hw.le hL2 hLle
  have hdivH : cfg.canvasH / ledFullSizeOf cfg (max a1 m1) (max b1 n1) ≤
      cfg.canvasH / ledFullSizeOf cfg (max a2 m2) (max b2 n2) :=
    div_le_div_of_nonneg_left hh.le hL2 hLle
  have hreqW : ⌈cfg.canvasW / ledFullSizeOf cfg (max a1 m1) (max b1 n1)⌉ + 2 ≤
      ⌈cfg.canvasW / ledFullSizeOf cfg (max a2 m2) (max b2 n2)⌉ + 2 := by
    have := Int.ceil_mono hdivW
    omega
  have hreqH : ⌈cfg.canvasH / ledFullSizeOf cfg (max a1 m1) (max b1 n1)⌉ + 2 ≤
      ⌈cfg.canvasH / ledFullSizeOf cfg (max a2 m2) (max b2 n2)⌉ + 2 := by
    have := Int.ceil_mono hdivH
    omega
  have hcolsZ : ((max a1 m1 : ℕ) : ℤ) ≤ ((max a2 m2 : ℕ) : ℤ) := by exact_mod_cast hcols
  have hrowsZ : ((max b1 n1 : ℕ) : ℤ) ≤ ((max b2 n2 : ℕ) : ℤ) := by exact_mod_cast hrows
  simp only [setupGridDims]
  rw [if_neg (not_le.mpr hL1), if_neg (not_le.mpr hL2)]
  cases hsp : cfg.isSparse
  · simp only [hsp, Bool.false_eq_true, if_false]
    exact ⟨hreqW, hreqH⟩
  · simp only [hsp, if_true]
    exact ⟨max_le_max hreqW hcolsZ, max_le_max hreqH hrowsZ⟩

/-- The tracked maxima update never decreases either tracker and always
covers the new pattern's dimensions. -/
theorem updateMaxDims_ge (mc mr nc nr : ℕ) :
    mc ≤ (updateMaxDims mc mr nc nr).1 ∧ mr ≤ (updateMaxDims mc mr nc nr).2 ∧
    nc ≤ (updateMaxDims mc mr nc nr).1 ∧ nr ≤ (updateMaxDims mc mr nc nr).2 := by
  unfold updateMaxDims
  split_ifs with h <;> simp <;> omega

/-- Claim C2 (amended): across consecutive `setPattern` calls at a fixed
canvas size, the tracked maximum pattern dimensions only grow and the grid
dimensions `numCols`/`numRows` never decrease; a resize-triggered `setup`
on a smaller container, however, can shrink the grid (see the
counterexample). -/
theorem c2_grid_growth_amended (cfg : SetupConfig) (maxCols maxRows p1C p1R p2C p2R : ℕ)
    (d0 : ℤ × ℤ) (m1 : ℕ × ℕ) (g1 : ℤ × ℤ) (m2 : ℕ × ℕ) (g2 : ℤ × ℤ)
    (hw : 0 < cfg.canvasW) (hh : 0 < cfg.canvasH) (hb : 0 < cfg.ledSize + cfg.ledGap)
    (e1 : setPatternInstant cfg maxCols maxRows d0 p1C p1R = (m1, g1))
    (e2 : setPatternInstant cfg m1.1 m1.2 g1 p2C p2R = (m2, g2)) :
    (maxCols ≤ m1.1 ∧ maxRows ≤ m1.2 ∧ m1.1 ≤ m2.1 ∧ m1.2 ≤ m2.2)
    ∧ (g1.1 ≤ g2.1 ∧ g1.2 ≤ g2.2) := by
  have hm1 : m1 = updateMaxDims maxCols maxRows p1C p1R := by
    have := congrArg Prod.fst e1
    simpa [setPatternInstant] using this.symm
  have hg1 : g1 = setupGridDims cfg p1C p1R m1.1 m1.2 d0 := by
    have := congrArg Prod.snd e1
    simp only [setPatternInstant] at this
    rw [← this, hm1]
  have hm2 : m2 = updateMaxDims m1.1 m1.2 p2C p2R := by
    have := congrArg Prod.fst e2
    simpa [setPatternInstant] using this.symm
  have hg2 : g2 = setupGridDims cfg p2C p2R m2.1 m2.2 g1 := by
    have := congrArg Prod.snd e2
    simp only [setPatternInstant] at this
    rw [← this, hm2]
  have h1 := updateMaxDims_ge maxCols maxRows p1C p1R
  rw [← hm1] at h1
  have h2 := updateMaxDims_ge m1.1 m1.2 p2C p2R
  rw [← hm2] at h2
  refine ⟨⟨h1.1, h1.2.1, h2.1, h2.2.1⟩, ?_⟩
  have hcols : max p1C m1.1 ≤ max p2C m2.1 := by
    have ha := h1.2.2.1
    have hb2 := h2.1
    have hc := h2.2.2.1
    omega
  have hrows : max p1R m1.2 ≤ max p2R m2.2 := by
    have ha := h1.2.2.2
    have hb2 := h2.2.1
    have hc := h2.2.2.2
    omega
  rw [hg1, hg2]
  exact setupGridDims_mono cfg p1C p1R m1.1 m1.2 p2C p2R m2.1 m2.2 d0 g1 hw hh hb
    hcols hrows

/-- Witness for C2 (amended): two pattern swaps (3 by 3, then 5 by 2, then
back to 2 by 2 tracked maxima) on a fixed 100 by 100 canvas. -/
theorem c2_witness :
    ((0 : ℚ) < 100 ∧ (0 : ℚ) < 100 ∧ (0 : ℚ) < 8 + 2) ∧
    (((3 : ℕ) ≤ (setPatternInstant ⟨100, 100, 8, 2, true, true⟩ 3 3 (0, 0) 5 2).1.1 ∧
      (3 : ℕ) ≤ (setPatternInstant ⟨100, 100, 8, 2, true, true⟩ 3 3 (0, 0) 5 2).1.2 ∧
      (setPatternInstant ⟨100, 100, 8, 2, true, true⟩ 3 3 (0, 0) 5 2).1.1 ≤
        (setPatternInstant ⟨100, 100, 8, 2, true, true⟩
          (setPatternInstant ⟨100, 100, 8, 2, true, true⟩ 3 3 (0, 0) 5 2).1.1
          (setPatternInstant ⟨100, 100, 8, 2, true, true⟩ 3 3 (0, 0) 5 2).1.2
          (setPatternInstant ⟨100, 100, 8, 2, true, true⟩ 3 3 (0, 0) 5 2).2 2 2).1.1 ∧
      (setPatternInstant ⟨100, 100, 8, 2, true, true⟩ 3 3 (0, 0) 5 2).1.2 ≤
        (setPatternInstant ⟨100, 100, 8, 2, true, true⟩
          (setPatternInstant ⟨100, 100, 8, 2, true, true⟩ 3 3 (0, 0) 5 2).1.1
          (setPatternInstant ⟨100, 100, 8, 2, true, true⟩ 3 3 (0, 0) 5 2).1.2
          (setPatternInstant ⟨100, 100, 8, 2, true, true⟩ 3 3 (0, 0) 5 2).2 2 2).1.2)
    ∧ ((setPatternInstant ⟨100, 100, 8, 2, true, true⟩ 3 3 (0, 0) 5 2).2.1 ≤
        (setPatternInstant ⟨100, 100, 8, 2, true, true⟩
          (setPatternInstant ⟨100, 100, 8, 2, true, true⟩ 3 3 (0, 0) 5 2).1.1
          (setPatternInstant ⟨100, 100, 8, 2, true, true⟩ 3 3 (0, 0) 5 2).1.2
          (setPatternInstant ⟨100, 100, 8, 2, true, true⟩ 3 3 (0, 0) 5 2).2 2 2).2.1 ∧
      (setPatternInstant ⟨100, 100, 8, 2, true, true⟩ 3 3 (0, 0) 5 2).2.2 ≤
        (setPatternInstant ⟨100, 100, 8, 2, true, true⟩
          (setPatternInstant ⟨100, 100, 8, 2, true, true⟩ 3 3 (0, 0) 5 2).1.1
          (setPatternInstant ⟨100, 100, 8, 2, true, true⟩ 3 3 (0, 0) 5 2).1.2
          (setPatternInstant ⟨100, 100, 8, 2, true, true⟩ 3 3 (0, 0) 5 2).2 2 2).2.2)) :=
  ⟨⟨by norm_num, by norm_num, by norm_num⟩,
    c2_grid_growth_amended ⟨100, 100, 8, 2, true, true⟩ 3 3 5 2 2 2 (0, 0)
      (setPatternInstant ⟨100, 100, 8, 2, true, true⟩ 3 3 (0, 0) 5 2).1
      (setPatternInstant ⟨100, 100, 8, 2, true, true⟩ 3 3 (0, 0) 5 2).2
      (setPatternInstant ⟨100, 100, 8, 2, true, true⟩
        (setPatternInstant ⟨100, 100, 8, 2, true, true⟩ 3 3 (0, 0) 5 2).1.1
        (setPatternInstant ⟨100, 100, 8, 2, true, true⟩ 3 3 (0, 0) 5 2).1.2
        (setPatternInstant ⟨100, 100, 8, 2, true, true⟩ 3 3 (0, 0) 5 2).2 2 2).1
      (setPatternInstant ⟨100, 100, 8, 2, true, true⟩
        (setPatternInstant ⟨100, 100, 8, 2, true, true⟩ 3 3 (0, 0) 5 2).1.1
        (setPatternInstant ⟨100, 100, 8, 2, true, true⟩ 3 3 (0, 0) 5 2).1.2
        (setPatternInstant ⟨100, 100, 8, 2, true, true⟩ 3 3 (0, 0) 5 2).2 2 2).2
      (by norm_num) (by norm_num) (by norm_num) rfl rfl⟩

end Ledding
